import Mathlib

/-!
Shallow embedding of the three Express handlers of
`src/services/leagueController.ts` together with the service layer of
`src/services/services.ts` (repository `konflex/node-express-server`).

JavaScript objects are modelled as association lists in insertion order
(JS objects have distinct keys; `Object.keys`/`Object.values` enumerate
string keys in insertion order).  Machine-level JS values that the
handlers inspect (truthiness, `typeof`) are modelled by the inductive
`JsVal`.  Fallible collaborator calls (Couchbase `insert`, `get`,
`replace`, `query`) are passed to each handler as explicit outcome
parameters; the handlers are total Lean functions, so the fact that an
exception never escapes a handler is visible in their types.
-/

namespace LeagueApp

/-- A JavaScript value as far as the handlers inspect it: the handlers
only test truthiness and `typeof x === "string"` on request fields.
`undef` models both an absent property and an explicit `undefined`. -/
inductive JsVal where
  | undef
  | null
  | bool (b : Bool)
  | num (n : Int)
  | str (s : String)
  deriving DecidableEq, Repr

/-- JS truthiness: `undefined`, `null`, `false`, `0` and `""` are falsy. -/
def JsVal.truthy : JsVal → Bool
  | .undef => false
  | .null => false
  | .bool b => b
  | .num n => n != 0
  | .str s => s != ""

/-- JS `typeof x === "string"`. -/
def JsVal.isStringVal : JsVal → Bool
  | .str _ => true
  | _ => false

/-- The string carried by a `str` value (only used after `isStringVal`). -/
def JsVal.asString : JsVal → String
  | .str s => s
  | _ => ""

/-- The JSON body of a create-league request after `express.json` parsing:
destructuring `const { id, name, description, adminId } = req.body`
yields `undef` for any property absent from the body. -/
structure CreateBody where
  id : JsVal
  name : JsVal
  description : JsVal
  adminId : JsVal
  deriving DecidableEq, Repr

/-- The league document built by `LeagueService.toCreateLeague`:
`{ id, type: 'mpg_league', adminId, name, description }`. -/
structure League where
  id : String
  type : String
  adminId : String
  name : String
  description : String
  deriving DecidableEq, Repr

/-- The acknowledgment returned by `collection.insert` (shape is
implementation-defined; the handler forwards it verbatim). -/
structure InsertAck where
  cas : Nat
  deriving DecidableEq, Repr

/-- A response body sent with `res.json(...)`. -/
inductive Resp where
  | error (msg : String)
  | ack (a : InsertAck)
  | users (names : List String)
  | message (msg : String)
  deriving DecidableEq, Repr

/-- Observable outcome of one run of the create-league handler: the HTTP
status, the JSON body, and the `insert` call made (key and document), if
any. `insertCall` is recorded even when the insert throws, since the
call was made. -/
structure CLOut where
  status : Nat
  body : Resp
  insertCall : Option (String × League)
  deriving DecidableEq, Repr

/-- `LeagueController.createLeague` (src/services/leagueController.ts,
lines 101-130).  `body?` is `none` when `req.body` is falsy; `outcome`
is the result of the `collection.insert` call, supplied as a parameter
and consulted only if the handler reaches the insert. -/
def createLeague (body? : Option CreateBody) (outcome : Except String InsertAck) :
    CLOut :=
  match body? with
  | none => ⟨400, .error "Request body is missing", none⟩
  | some b =>
    if !(b.id.truthy || b.name.truthy || b.description.truthy || b.adminId.truthy) then
      ⟨400, .error "Missing required properties", none⟩
    else if !b.id.isStringVal || !b.name.isStringVal
        || !b.description.isStringVal || !b.adminId.isStringVal then
      ⟨400, .error "Invalid data type for properties", none⟩
    else
      let league : League :=
        ⟨b.id.asString, "mpg_league", b.adminId.asString,
          b.name.asString, b.description.asString⟩
      match outcome with
      | .ok a => ⟨200, .ack a, some (b.id.asString, league)⟩
      | .error _ =>
          ⟨500, .error "An error occured whild creating the league",
            some (b.id.asString, league)⟩

/-- A mapping object such as `usersTeams`, keys to user names. -/
abbrev UsersMap := List (String × String)

/-- One row of the N1QL query result: a JS object whose own enumerable
keys are `fields` (for the claims at hand every field value is a
mapping object, e.g. `usersTeams`). -/
structure Row where
  fields : List (String × UsersMap)
  deriving DecidableEq, Repr

/-- Observable outcome of the list-users handler. -/
structure GUOut where
  status : Nat
  body : Resp
  deriving DecidableEq, Repr

/-- `LeagueController.getUsersFromLeague` (src/services/leagueController.ts,
lines 137-175).  `leagueId?` is `none` when `req.params.leagueId` is
missing; `outcome` is the result of `cluster.query`.  The guard is
`result.rows && result.rows[0] && Object.keys(result.rows[0]).length > 0`;
on the 200 branch the code maps every row to `row.usersTeams`, applies
`.flat()` (the identity here, since the elements are objects or
`undefined`, not arrays), and takes `Object.values` of element 0.  If
`rows[0]` has no `usersTeams` key, `Object.values(undefined)` throws and
the catch block answers 500. -/
def getUsersFromLeague (leagueId? : Option String)
    (outcome : Except String (List Row)) : GUOut :=
  match leagueId? with
  | none => ⟨400, .error "Request params is missing"⟩
  | some _ =>
    match outcome with
    | .error _ => ⟨500, .error "Error occured while retrieving users from a league"⟩
    | .ok rows =>
      match rows with
      | [] => ⟨204, .users []⟩
      | r0 :: _ =>
        if r0.fields.isEmpty then
          ⟨204, .users []⟩
        else
          match r0.fields.lookup "usersTeams" with
          | none => ⟨500, .error "Error occured while retrieving users from a league"⟩
          | some m => ⟨200, .users (m.map Prod.snd)⟩

/-- A team document: a JS object, fields in insertion order. -/
abbrev Doc := List (String × JsVal)

/-- Overwrite the binding of key `k` in an association list, in place
(a JS object has at most one binding per key; absent keys are left
as-is). -/
def assocSet {β : Type} (l : List (String × β)) (k : String) (b : β) :
    List (String × β) :=
  l.map (fun p => if p.1 = k then (k, b) else p)

/-- JS property assignment `obj.k = v`: overwrite in place when the key
exists, otherwise append the new property at the end. -/
def setField (d : Doc) (k : String) (v : JsVal) : Doc :=
  if d.any (fun p => p.1 == k) then assocSet d k v else d ++ [(k, v)]

/-- Outcome of the `collection.get` call as the handler sees it:
the collaborator threw, or it returned a falsy value, or an object
whose `content` is falsy, or a document with content. -/
inductive GetOutcome where
  | thrown (e : String)
  | missing
  | noContent
  | found (d : Doc)
  deriving DecidableEq, Repr

/-- Observable outcome of one run of the update-team handler: status,
body, and the `replace` call made (key and full document), if any. -/
structure UTOut where
  status : Nat
  body : Resp
  write : Option (String × Doc)
  deriving DecidableEq, Repr

/-- `LeagueController.updateTeamName` (src/services/leagueController.ts,
lines 182-225).  `params?`/`body?` are `none` when `req.params` /
`req.body` is falsy; the values carried are `req.params.teamId` and
`req.body.name`.  `fetch` is the outcome of `leagueService.toGetTeam`,
`rep` the outcome of `leagueService.toUpdateTeam` (consulted only when
the replace is reached). -/
def updateTeamName (params? : Option JsVal) (body? : Option JsVal)
    (fetch : GetOutcome) (rep : Except String Unit) : UTOut :=
  match body?, params? with
  | none, _ => ⟨400, .error "Request body or request params is undefined", none⟩
  | some _, none => ⟨400, .error "Request body or request params is undefined", none⟩
  | some name, some teamId =>
    if !teamId.truthy || !name.truthy then
      ⟨400, .error "teamId and name are required", none⟩
    else if !teamId.isStringVal || !name.isStringVal then
      ⟨400, .error "Invalid data type for properties", none⟩
    else
      match fetch with
      | .thrown _ => ⟨500, .error "An error occured while updating team", none⟩
      | .missing => ⟨404, .error "Team not found", none⟩
      | .noContent => ⟨404, .error "Team not found", none⟩
      | .found d =>
        let team := setField d "name" name
        match rep with
        | .ok _ =>
            ⟨200, .message "Team name updated successfully",
              some (teamId.asString, team)⟩
        | .error _ =>
            ⟨500, .error "An error occured while updating team",
              some (teamId.asString, team)⟩

/-- The key-value store (Couchbase collection): document keys to
document contents. -/
abbrev Store := List (String × Doc)

/-- Couchbase `collection.get`: throws `DocumentNotFoundError` on a
missing key, otherwise returns a result whose `content` is the stored
document. -/
def storeGet (s : Store) (k : String) : GetOutcome :=
  match s.lookup k with
  | some d => .found d
  | none => .thrown "DocumentNotFoundError"

/-- Effect of Couchbase `collection.replace k d` on the store contents
(replace on an existing key; keys and their order are unchanged). -/
def listReplace (s : Store) (k : String) (d : Doc) : Store :=
  assocSet s k d

/-- One end-to-end run of the update-team handler against a store, with
the collaborator semantics of `storeGet`/`listReplace`: the handler
reaches `replace` only after a successful `get`, so the key exists and
the replace succeeds.  Returns the handler outcome and the store after
the run. -/
def runUpdateTeam (s : Store) (teamId name : String) : UTOut × Store :=
  let out := updateTeamName (some (JsVal.str teamId)) (some (JsVal.str name))
    (storeGet s teamId) (.ok ())
  match out.write with
  | some (k, d) => (out, listReplace s k d)
  | none => (out, s)

/-! Helper lemmas for the create-league validation branches. -/

/-- When all four fields are falsy, the first validation guard fires. -/
theorem createLeague_allFalsy (b : CreateBody) (o : Except String InsertAck)
    (h : (b.id.truthy || b.name.truthy || b.description.truthy || b.adminId.truthy) = false) :
    createLeague (some b) o = ⟨400, .error "Missing required properties", none⟩ := by
  simp [createLeague, h]

/-- When some field is not a string (and not all fields are falsy), the
type-check guard fires. -/
theorem createLeague_badType (b : CreateBody) (o : Except String InsertAck)
    (h : (!b.id.isStringVal || !b.name.isStringVal
      || !b.description.isStringVal || !b.adminId.isStringVal) = true) :
    (createLeague (some b) o).status = 400 ∧ (createLeague (some b) o).insertCall = none := by
  by_cases hc : (b.id.truthy || b.name.truthy || b.description.truthy || b.adminId.truthy) = false
  · simp [createLeague_allFalsy b o hc]
  · simp only [Bool.not_eq_false] at hc
    simp [createLeague, hc, h]

/-- A `null` or `undefined` value is not a string. -/
theorem nullOrUndef_not_string (v : JsVal) (h : v = .null ∨ v = .undef) :
    v.isStringVal = false := by
  rcases h with h | h <;> subst h <;> rfl

/-- C1 (counterexample): the claim says any single falsy field forces a
400 and no insert; but with `id = ""` (falsy) and the other three fields
truthy strings, the OR-of-truthy guard passes, the type check passes,
and the handler inserts and answers 200. -/
theorem C1_claim_false :
    (JsVal.str "").truthy = false
      ∧ (createLeague (some ⟨.str "", .str "n", .str "d", .str "a"⟩)
          (.ok ⟨1⟩)).status = 200
      ∧ (createLeague (some ⟨.str "", .str "n", .str "d", .str "a"⟩)
          (.ok ⟨1⟩)).insertCall
        = some ("", ⟨"", "mpg_league", "a", "n", "d"⟩) := by
  decide

/-- C1 (amended): if the request body is present and any of the four
fields is `null` or `undefined`, or all four fields are falsy, the
handler responds 400 and does not call insert.  (A falsy empty-string
field alone does not trigger the 400: the guard in the code is
`!(id || name || description || adminId)`, an all-falsy test, and the
subsequent `typeof` check only rejects non-strings.) -/
theorem C1_createLeague_falsy_400 (b : CreateBody) (o : Except String InsertAck)
    (h : b.id = .null ∨ b.id = .undef ∨ b.name = .null ∨ b.name = .undef
      ∨ b.description = .null ∨ b.description = .undef
      ∨ b.adminId = .null ∨ b.adminId = .undef
      ∨ (b.id.truthy = false ∧ b.name.truthy = false
          ∧ b.description.truthy = false ∧ b.adminId.truthy = false)) :
    (createLeague (some b) o).status = 400
      ∧ (createLeague (some b) o).insertCall = none := by
  rcases h with h | h | h | h | h | h | h | h | ⟨h1, h2, h3, h4⟩
  · exact createLeague_badType b o (by simp [nullOrUndef_not_string b.id (Or.inl h)])
  · exact createLeague_badType b o (by simp [nullOrUndef_not_string b.id (Or.inr h)])
  · exact createLeague_badType b o (by simp [nullOrUndef_not_string b.name (Or.inl h)])
  · exact createLeague_badType b o (by simp [nullOrUndef_not_string b.name (Or.inr h)])
  · exact createLeague_badType b o (by simp [nullOrUndef_not_string b.description (Or.inl h)])
  · exact createLeague_badType b o (by simp [nullOrUndef_not_string b.description (Or.inr h)])
  · exact createLeague_badType b o (by simp [nullOrUndef_not_string b.adminId (Or.inl h)])
  · exact createLeague_badType b o (by simp [nullOrUndef_not_string b.adminId (Or.inr h)])
  · simp [createLeague_allFalsy b o (by simp [h1, h2, h3, h4])]

/-- C1 witness: a body whose `name` is `null` is rejected with 400 and
no insert. -/
theorem C1_witness :
    (createLeague (some ⟨.str "L1", .null, .str "d", .str "a"⟩) (.ok ⟨7⟩)).status = 400
      ∧ (createLeague (some ⟨.str "L1", .null, .str "d", .str "a"⟩) (.ok ⟨7⟩)).insertCall
        = none :=
  C1_createLeague_falsy_400 ⟨.str "L1", .null, .str "d", .str "a"⟩ (.ok ⟨7⟩)
    (by decide)

/-- C7: if any of the four required fields is absent from the body
(destructured to `undefined`), the handler responds 400 and makes no
insert call: either all four fields are falsy and the first guard fires,
or the `typeof` check rejects the `undefined` field. -/
theorem C7_createLeague_missing_field_400 (b : CreateBody) (o : Except String InsertAck)
    (h : b.id = .undef ∨ b.name = .undef ∨ b.description = .undef ∨ b.adminId = .undef) :
    (createLeague (some b) o).status = 400
      ∧ (createLeague (some b) o).insertCall = none := by
  rcases h with h | h | h | h
  · exact createLeague_badType b o (by simp [nullOrUndef_not_string b.id (Or.inr h)])
  · exact createLeague_badType b o (by simp [nullOrUndef_not_string b.name (Or.inr h)])
  · exact createLeague_badType b o (by simp [nullOrUndef_not_string b.description (Or.inr h)])
  · exact createLeague_badType b o (by simp [nullOrUndef_not_string b.adminId (Or.inr h)])

/-- C7 witness: a body lacking `adminId` is rejected with 400 and no
insert. -/
theorem C7_witness :
    (createLeague (some ⟨.str "L1", .str "n", .str "d", .undef⟩) (.ok ⟨7⟩)).status = 400
      ∧ (createLeague (some ⟨.str "L1", .str "n", .str "d", .undef⟩) (.ok ⟨7⟩)).insertCall
        = none :=
  C7_createLeague_missing_field_400 ⟨.str "L1", .str "n", .str "d", .undef⟩ (.ok ⟨7⟩)
    (by decide)

/-- C6: when all four fields are non-empty strings, the document passed
to insert is exactly the league built from the request fields with
discriminator `mpg_league`, keyed by `id`, and the 200 response body is
the raw insert acknowledgment. -/
theorem C6_createLeague_success (id name description adminId : String)
    (a : InsertAck) (h1 : id ≠ "") (h2 : name ≠ "") (h3 : description ≠ "")
    (h4 : adminId ≠ "") :
    createLeague (some ⟨.str id, .str name, .str description, .str adminId⟩) (.ok a)
      = ⟨200, .ack a, some (id, ⟨id, "mpg_league", adminId, name, description⟩)⟩ := by
  simp [createLeague, JsVal.truthy, JsVal.isStringVal, JsVal.asString, h1]

/-- C6 witness at a concrete request. -/
theorem C6_witness :
    createLeague (some ⟨.str "L1", .str "My league", .str "desc", .str "u9"⟩) (.ok ⟨3⟩)
      = ⟨200, .ack ⟨3⟩, some ("L1", ⟨"L1", "mpg_league", "u9", "My league", "desc"⟩)⟩ :=
  C6_createLeague_success "L1" "My league" "desc" "u9" ⟨3⟩
    (by decide) (by decide) (by decide) (by decide)

/-- C2: when the first row of the query result contains
`usersTeams = [("u1", "Alice"), ("u2", "Bob")]`, the handler answers 200
with users `["Alice", "Bob"]` — the values of the first row's mapping in
insertion order — no matter what the remaining rows contain. -/
theorem C2_getUsers_first_row (leagueId : String) (r0 : Row) (rest : List Row)
    (h : r0.fields.lookup "usersTeams" = some [("u1", "Alice"), ("u2", "Bob")]) :
    getUsersFromLeague (some leagueId) (.ok (r0 :: rest))
      = ⟨200, .users ["Alice", "Bob"]⟩ := by
  have hne : r0.fields.isEmpty = false := by
    cases hf : r0.fields with
    | nil => rw [hf] at h; simp [List.lookup] at h
    | cons p l => simp [hf]
  simp [getUsersFromLeague, hne, h]

/-- C2 witness: first row `[("usersTeams", that mapping)]` followed by a
second, different row. -/
theorem C2_witness :
    getUsersFromLeague (some "L1")
        (.ok [⟨[("usersTeams", [("u1", "Alice"), ("u2", "Bob")])]⟩,
              ⟨[("usersTeams", [("u3", "Carol")])]⟩])
      = ⟨200, .users ["Alice", "Bob"]⟩ :=
  C2_getUsers_first_row "L1" ⟨[("usersTeams", [("u1", "Alice"), ("u2", "Bob")])]⟩
    [⟨[("usersTeams", [("u3", "Carol")])]⟩] (by decide)

/-- C4: with zero rows, or with a first row that is an empty object, the
handler answers 204 with an empty user list, regardless of the later
rows. -/
theorem C4_getUsers_empty_first_row (leagueId : String) (rows : List Row)
    (h : rows = [] ∨ ∃ rest, rows = ⟨[]⟩ :: rest) :
    getUsersFromLeague (some leagueId) (.ok rows) = ⟨204, .users []⟩ := by
  rcases h with h | ⟨rest, h⟩ <;> subst h <;> simp [getUsersFromLeague]

/-- C4 witness: first row empty, second row non-empty; the answer is
still 204 with no users. -/
theorem C4_witness :
    getUsersFromLeague (some "L1")
        (.ok [⟨[]⟩, ⟨[("usersTeams", [("u1", "Alice")])]⟩])
      = ⟨204, .users []⟩ :=
  C4_getUsers_empty_first_row "L1" [⟨[]⟩, ⟨[("usersTeams", [("u1", "Alice")])]⟩]
    (Or.inr ⟨[⟨[("usersTeams", [("u1", "Alice")])]⟩], rfl⟩)

/-- C10: a first row that is non-empty as an object but whose
`usersTeams` mapping is empty takes the 200 branch (the 204/200 guard
counts the keys of the row object, not of the mapping) and yields 200
with an empty user list. -/
theorem C10_getUsers_empty_mapping (leagueId : String) (r0 : Row) (rest : List Row)
    (h : r0.fields.lookup "usersTeams" = some []) :
    getUsersFromLeague (some leagueId) (.ok (r0 :: rest)) = ⟨200, .users []⟩ := by
  have hne : r0.fields.isEmpty = false := by
    cases hf : r0.fields with
    | nil => rw [hf] at h; simp [List.lookup] at h
    | cons p l => simp [hf]
  simp [getUsersFromLeague, hne, h]

/-- C10 witness: `rows[0] = [("usersTeams", [])]` gives 200 with no
users, not 204. -/
theorem C10_witness :
    getUsersFromLeague (some "L1") (.ok [⟨[("usersTeams", [])]⟩])
      = ⟨200, .users []⟩ :=
  C10_getUsers_empty_mapping "L1" ⟨[("usersTeams", [])]⟩ [] (by decide)

/-! Association-list lemmas used for the store and document reasoning. -/

/-- Looking up the key just consed on front. -/
theorem lookup_cons_self {β : Type} (k : String) (b : β) (t : List (String × β)) :
    ((k, b) :: t).lookup k = some b := by
  simp [List.lookup]

/-- Looking up a different key skips the head. -/
theorem lookup_cons_ne {β : Type} (k k0 : String) (b : β) (t : List (String × β))
    (h : k ≠ k0) : ((k0, b) :: t).lookup k = t.lookup k := by
  have hbeq : (k == k0) = false := by simp [h]
  simp [List.lookup, hbeq]

/-- `assocSet` on a head with the written key. -/
theorem assocSet_cons_eq {β : Type} (k : String) (b0 b : β) (t : List (String × β)) :
    assocSet ((k, b0) :: t) k b = (k, b) :: assocSet t k b := by
  simp [assocSet]

/-- `assocSet` on a head with another key. -/
theorem assocSet_cons_ne {β : Type} (k k0 : String) (b0 b : β) (t : List (String × β))
    (h : k0 ≠ k) : assocSet ((k0, b0) :: t) k b = (k0, b0) :: assocSet t k b := by
  simp [assocSet, h]

/-- After `assocSet` on a present key, looking it up yields the new value. -/
theorem assocSet_lookup_self {β : Type} (l : List (String × β)) (k : String) (b : β)
    (h : (l.lookup k).isSome = true) :
    (assocSet l k b).lookup k = some b := by
  induction l with
  | nil => simp [List.lookup] at h
  | cons p t ih =>
    obtain ⟨k0, b0⟩ := p
    by_cases hk : k0 = k
    · subst hk
      rw [assocSet_cons_eq, lookup_cons_self]
    · rw [assocSet_cons_ne _ _ _ _ _ hk, lookup_cons_ne _ _ _ _ (Ne.symm hk)]
      rw [lookup_cons_ne _ _ _ _ (Ne.symm hk)] at h
      exact ih h

/-- `assocSet` leaves the lookup of every other key unchanged. -/
theorem assocSet_lookup_other {β : Type} (l : List (String × β)) (k f : String) (b : β)
    (h : f ≠ k) :
    (assocSet l k b).lookup f = l.lookup f := by
  induction l with
  | nil => simp [assocSet]
  | cons p t ih =>
    obtain ⟨k0, b0⟩ := p
    by_cases hk : k0 = k
    · subst hk
      rw [assocSet_cons_eq, lookup_cons_ne _ _ _ _ h, lookup_cons_ne _ _ _ _ h]
      exact ih
    · rw [assocSet_cons_ne _ _ _ _ _ hk]
      by_cases hf : f = k0
      · subst hf
        rw [lookup_cons_self, lookup_cons_self]
      · rw [lookup_cons_ne _ _ _ _ hf, lookup_cons_ne _ _ _ _ hf]
        exact ih

/-- Writing the same key twice keeps only the second write. -/
theorem assocSet_assocSet {β : Type} (l : List (String × β)) (k : String) (b1 b2 : β) :
    assocSet (assocSet l k b1) k b2 = assocSet l k b2 := by
  simp only [assocSet, List.map_map]
  apply List.map_congr_left
  intro p _
  by_cases hk : p.1 = k
  · simp [Function.comp, hk]
  · simp [Function.comp, hk]

/-- `assocSet` on an absent key is the identity. -/
theorem assocSet_of_absent {β : Type} (l : List (String × β)) (k : String) (b : β)
    (h : (l.lookup k).isSome = false) :
    assocSet l k b = l := by
  induction l with
  | nil => rfl
  | cons p t ih =>
    obtain ⟨k0, b0⟩ := p
    by_cases hk : k0 = k
    · subst hk
      rw [lookup_cons_self] at h
      simp at h
    · rw [lookup_cons_ne _ _ _ _ (Ne.symm hk)] at h
      rw [assocSet_cons_ne _ _ _ _ _ hk, ih h]

/-- A key has a lookup result exactly when some entry carries it. -/
theorem lookup_isSome_eq_any {β : Type} (l : List (String × β)) (k : String) :
    (l.lookup k).isSome = l.any (fun p => p.1 == k) := by
  induction l with
  | nil => simp [List.lookup]
  | cons p t ih =>
    obtain ⟨k0, b0⟩ := p
    by_cases hk : k0 = k
    · subst hk
      rw [lookup_cons_self]
      simp
    · rw [lookup_cons_ne _ _ _ _ (Ne.symm hk)]
      have hbeq : (k0 == k) = false := by simp [hk]
      simp [hbeq, ih]

/-- Appending a binding for an absent key makes it found. -/
theorem lookup_append_self {β : Type} (l : List (String × β)) (k : String) (b : β)
    (h : (l.lookup k).isSome = false) :
    (l ++ [(k, b)]).lookup k = some b := by
  induction l with
  | nil => exact lookup_cons_self k b []
  | cons p t ih =>
    obtain ⟨k0, b0⟩ := p
    by_cases hk : k0 = k
    · subst hk
      rw [lookup_cons_self] at h
      simp at h
    · rw [lookup_cons_ne _ _ _ _ (Ne.symm hk)] at h
      rw [List.cons_append, lookup_cons_ne _ _ _ _ (Ne.symm hk)]
      exact ih h

/-- Appending a binding for key `k` does not change other lookups. -/
theorem lookup_append_other {β : Type} (l : List (String × β)) (k f : String) (b : β)
    (h : f ≠ k) :
    (l ++ [(k, b)]).lookup f = l.lookup f := by
  induction l with
  | nil =>
    rw [List.nil_append, lookup_cons_ne _ _ _ _ h]
  | cons p t ih =>
    obtain ⟨k0, b0⟩ := p
    by_cases hf : f = k0
    · subst hf
      rw [List.cons_append, lookup_cons_self, lookup_cons_self]
    · rw [List.cons_append, lookup_cons_ne _ _ _ _ hf, lookup_cons_ne _ _ _ _ hf]
      exact ih

/-- The field just set by `setField` reads back as the new value. -/
theorem setField_lookup_self (d : Doc) (k : String) (v : JsVal) :
    (setField d k v).lookup k = some v := by
  unfold setField
  by_cases h : (d.lookup k).isSome = true
  · rw [if_pos (by rw [← lookup_isSome_eq_any]; exact h)]
    exact assocSet_lookup_self d k v h
  · have h2 : (d.lookup k).isSome = false := by
      cases hx : (d.lookup k).isSome with
      | true => exact absurd hx h
      | false => rfl
    rw [if_neg (by rw [← lookup_isSome_eq_any, h2]; simp)]
    exact lookup_append_self d k v h2

/-- `setField` leaves every other field unchanged. -/
theorem setField_lookup_other (d : Doc) (k f : String) (v : JsVal)
    (hf : f ≠ k) :
    (setField d k v).lookup f = d.lookup f := by
  unfold setField
  by_cases h : (d.lookup k).isSome = true
  · rw [if_pos (by rw [← lookup_isSome_eq_any]; exact h)]
    exact assocSet_lookup_other d k f v hf
  · have h2 : (d.lookup k).isSome = false := by
      cases hx : (d.lookup k).isSome with
      | true => exact absurd hx h
      | false => rfl
    rw [if_neg (by rw [← lookup_isSome_eq_any, h2]; simp)]
    exact lookup_append_other d k f v hf

/-- Setting the same field to the same value twice equals setting it
once. -/
theorem setField_idem (d : Doc) (k : String) (v : JsVal) :
    setField (setField d k v) k v = setField d k v := by
  have hs : ((setField d k v).lookup k).isSome = true := by
    rw [setField_lookup_self]
    rfl
  conv_lhs => rw [setField]
  rw [if_pos (by rw [← lookup_isSome_eq_any]; exact hs)]
  by_cases h : (d.lookup k).isSome = true
  · rw [setField, if_pos (by rw [← lookup_isSome_eq_any]; exact h)]
    exact assocSet_assocSet d k v v
  · have h2 : (d.lookup k).isSome = false := by
      cases hx : (d.lookup k).isSome with
      | true => exact absurd hx h
      | false => rfl
    rw [setField, if_neg (by rw [← lookup_isSome_eq_any, h2]; simp)]
    show assocSet (d ++ [(k, v)]) k v = d ++ [(k, v)]
    unfold assocSet
    rw [List.map_append]
    have hd : List.map (fun p => if p.1 = k then (k, v) else p) d = d :=
      assocSet_of_absent d k v h2
    rw [hd]
    simp

/-- C3 (counterexample): with the Couchbase collaborator, which throws
`DocumentNotFoundError` on a missing key, an update of a non-existent
team hits the catch block and answers 500, not 404 (no write occurs
either way). -/
theorem C3_claim_false :
    storeGet [] "t1" = .thrown "DocumentNotFoundError"
      ∧ (runUpdateTeam [] "t1" "NewName").1.status = 500
      ∧ (runUpdateTeam [] "t1" "NewName").1.status ≠ 404
      ∧ (runUpdateTeam [] "t1" "NewName").2 = [] := by
  decide

/-- C3 (amended): with valid string `teamId` and `name`, when the fetch
returns without throwing either no document or a document without
content, the handler responds 404 and performs no write; when the
collaborator throws on the missing key instead, the handler responds
500, also with no write. -/
theorem C3_updateTeam_missing (teamId name : String) (rep : Except String Unit)
    (e : String) (h1 : teamId ≠ "") (h2 : name ≠ "") :
    updateTeamName (some (.str teamId)) (some (.str name)) .missing rep
        = ⟨404, .error "Team not found", none⟩
      ∧ updateTeamName (some (.str teamId)) (some (.str name)) .noContent rep
        = ⟨404, .error "Team not found", none⟩
      ∧ updateTeamName (some (.str teamId)) (some (.str name)) (.thrown e) rep
        = ⟨500, .error "An error occured while updating team", none⟩ := by
  simp [updateTeamName, JsVal.truthy, JsVal.isStringVal, h1, h2]

/-- C3 witness at concrete inputs. -/
theorem C3_witness :
    updateTeamName (some (.str "t1")) (some (.str "NewName")) .missing (.ok ())
        = ⟨404, .error "Team not found", none⟩
      ∧ updateTeamName (some (.str "t1")) (some (.str "NewName")) .noContent (.ok ())
        = ⟨404, .error "Team not found", none⟩
      ∧ updateTeamName (some (.str "t1")) (some (.str "NewName"))
          (.thrown "DocumentNotFoundError") (.ok ())
        = ⟨500, .error "An error occured while updating team", none⟩ :=
  C3_updateTeam_missing "t1" "NewName" (.ok ()) "DocumentNotFoundError"
    (by decide) (by decide)

/-- C5: with valid string `teamId` and `name` and a stored document for
`teamId`, the handler answers 200 with the success message; the written
document is the fetched content with its `name` field set to the new
value, everything else preserved; it is stored under the same key, and
every other key of the store is untouched. -/
theorem C5_updateTeam_success (s : Store) (teamId name : String) (d : Doc)
    (h1 : teamId ≠ "") (h2 : name ≠ "") (hd : s.lookup teamId = some d) :
    (runUpdateTeam s teamId name).1
        = ⟨200, .message "Team name updated successfully",
            some (teamId, setField d "name" (.str name))⟩
      ∧ (runUpdateTeam s teamId name).2.lookup teamId
        = some (setField d "name" (.str name))
      ∧ (∀ k2, k2 ≠ teamId → (runUpdateTeam s teamId name).2.lookup k2 = s.lookup k2)
      ∧ (setField d "name" (.str name)).lookup "name" = some (.str name)
      ∧ (∀ f, f ≠ "name" →
          (setField d "name" (.str name)).lookup f = d.lookup f) := by
  have hget : storeGet s teamId = .found d := by simp [storeGet, hd]
  have hrun : runUpdateTeam s teamId name
      = (⟨200, .message "Team name updated successfully",
            some (teamId, setField d "name" (.str name))⟩,
          listReplace s teamId (setField d "name" (.str name))) := by
    simp [runUpdateTeam, updateTeamName, hget, JsVal.truthy, JsVal.isStringVal,
      JsVal.asString, h1, h2]
  refine ⟨by rw [hrun], ?_, ?_,
    setField_lookup_self d "name" (.str name),
    fun f hf => setField_lookup_other d "name" f (.str name) hf⟩
  · rw [hrun]
    exact assocSet_lookup_self s teamId _ (by rw [hd]; rfl)
  · intro k2 hk2
    rw [hrun]
    exact assocSet_lookup_other s teamId k2 _ hk2

/-- C5 witness: updating team `t1` of a concrete one-team store renames
it and keeps its `owner` field. -/
theorem C5_witness :
    (runUpdateTeam [("t1", [("name", JsVal.str "Old"), ("owner", JsVal.str "u1")])]
        "t1" "NewName").1
      = ⟨200, .message "Team name updated successfully",
          some ("t1", [("name", JsVal.str "NewName"), ("owner", JsVal.str "u1")])⟩
      ∧ (runUpdateTeam [("t1", [("name", JsVal.str "Old"), ("owner", JsVal.str "u1")])]
          "t1" "NewName").2.lookup "t1"
        = some [("name", JsVal.str "NewName"), ("owner", JsVal.str "u1")] := by
  have h := C5_updateTeam_success
    [("t1", [("name", JsVal.str "Old"), ("owner", JsVal.str "u1")])] "t1" "NewName"
    [("name", JsVal.str "Old"), ("owner", JsVal.str "u1")]
    (by decide) (by decide) rfl
  exact ⟨h.1.trans (by decide), h.2.1.trans (by decide)⟩

/-- C8: an update-team call on a stored team succeeds (status 200), and
repeating the identical call leaves both the outcome and the whole store
exactly as after the first call. -/
theorem C8_updateTeam_idempotent (s : Store) (teamId name : String) (d : Doc)
    (h1 : teamId ≠ "") (h2 : name ≠ "") (hd : s.lookup teamId = some d) :
    (runUpdateTeam s teamId name).1.status = 200
      ∧ runUpdateTeam (runUpdateTeam s teamId name).2 teamId name
        = runUpdateTeam s teamId name := by
  have hget : storeGet s teamId = .found d := by simp [storeGet, hd]
  have hrun : runUpdateTeam s teamId name
      = (⟨200, .message "Team name updated successfully",
            some (teamId, setField d "name" (.str name))⟩,
          listReplace s teamId (setField d "name" (.str name))) := by
    simp [runUpdateTeam, updateTeamName, hget, JsVal.truthy, JsVal.isStringVal,
      JsVal.asString, h1, h2]
  have hlook : (listReplace s teamId (setField d "name" (.str name))).lookup teamId
      = some (setField d "name" (.str name)) :=
    assocSet_lookup_self s teamId _ (by rw [hd]; rfl)
  have hget2 : storeGet (listReplace s teamId (setField d "name" (.str name))) teamId
      = .found (setField d "name" (.str name)) := by
    simp [storeGet, hlook]
  have hrun2 : runUpdateTeam (listReplace s teamId (setField d "name" (.str name)))
        teamId name
      = (⟨200, .message "Team name updated successfully",
            some (teamId, setField d "name" (.str name))⟩,
          listReplace s teamId (setField d "name" (.str name))) := by
    simp [runUpdateTeam, updateTeamName, hget2, JsVal.truthy, JsVal.isStringVal,
      JsVal.asString, h1, h2, setField_idem]
    exact assocSet_assocSet s teamId _ _
  rw [hrun, hrun2]
  exact ⟨rfl, rfl⟩

/-- C8 witness on a concrete store. -/
theorem C8_witness :
    (runUpdateTeam [("t1", [("name", JsVal.str "Old")])] "t1" "NewName").1.status = 200
      ∧ runUpdateTeam
          (runUpdateTeam [("t1", [("name", JsVal.str "Old")])] "t1" "NewName").2
          "t1" "NewName"
        = runUpdateTeam [("t1", [("name", JsVal.str "Old")])] "t1" "NewName" :=
  C8_updateTeam_idempotent [("t1", [("name", JsVal.str "Old")])] "t1" "NewName"
    [("name", JsVal.str "Old")] (by decide) (by decide) rfl

/-- C9: each handler is a total function (no exception escapes it), and
whenever a service or store call throws — the insert of create-league,
the query of list-users, the get or the replace of update-team — the
response is status 500 with a fixed handler-specific message that does
not depend on the thrown error, hence never contains its text. -/
theorem C9_handlers_catch_500 :
    (∀ (id name description adminId : String) (e : String), id ≠ "" →
      (createLeague (some ⟨.str id, .str name, .str description, .str adminId⟩)
          (.error e)).status = 500
        ∧ (createLeague (some ⟨.str id, .str name, .str description, .str adminId⟩)
            (.error e)).body
          = .error "An error occured whild creating the league")
    ∧ (∀ leagueId e : String,
        getUsersFromLeague (some leagueId) (.error e)
          = ⟨500, .error "Error occured while retrieving users from a league"⟩)
    ∧ (∀ (teamId name e : String) (rep : Except String Unit),
        teamId ≠ "" → name ≠ "" →
        updateTeamName (some (.str teamId)) (some (.str name)) (.thrown e) rep
          = ⟨500, .error "An error occured while updating team", none⟩)
    ∧ (∀ (teamId name e : String) (d : Doc), teamId ≠ "" → name ≠ "" →
        (updateTeamName (some (.str teamId)) (some (.str name)) (.found d)
            (.error e)).status = 500
          ∧ (updateTeamName (some (.str teamId)) (some (.str name)) (.found d)
              (.error e)).body = .error "An error occured while updating team") := by
  refine ⟨?_, ?_, ?_, ?_⟩
  · intro id name description adminId e h
    constructor <;> simp [createLeague, JsVal.truthy, JsVal.isStringVal, h]
  · intro leagueId e
    rfl
  · intro teamId name e rep h1 h2
    simp [updateTeamName, JsVal.truthy, JsVal.isStringVal, h1, h2]
  · intro teamId name e d h1 h2
    constructor <;> simp [updateTeamName, JsVal.truthy, JsVal.isStringVal, h1, h2]

/-- C9 witness: concrete throwing calls for each of the three handlers. -/
theorem C9_witness :
    (createLeague (some ⟨.str "L1", .str "n", .str "d", .str "a"⟩)
        (.error "boom")).status = 500
      ∧ getUsersFromLeague (some "L1") (.error "boom")
        = ⟨500, .error "Error occured while retrieving users from a league"⟩
      ∧ updateTeamName (some (.str "t1")) (some (.str "n")) (.thrown "boom") (.ok ())
        = ⟨500, .error "An error occured while updating team", none⟩
      ∧ (updateTeamName (some (.str "t1")) (some (.str "n"))
          (.found [("name", .str "o")]) (.error "boom")).status = 500 :=
  ⟨(C9_handlers_catch_500.1 "L1" "n" "d" "a" "boom" (by decide)).1,
   C9_handlers_catch_500.2.1 "L1" "boom",
   C9_handlers_catch_500.2.2.1 "t1" "n" "boom" (.ok ()) (by decide) (by decide),
   (C9_handlers_catch_500.2.2.2 "t1" "n" "boom" [("name", .str "o")]
      (by decide) (by decide)).1⟩

end LeagueApp
